import Mathlib

/-!
Verification of the Dilcore-AI-Core streaming template-generation pipeline.

This file gives a shallow embedding of the parts of the repository that the
verified properties talk about:

* `src/ai_agent/agent/streaming.py` — `StreamingModuleBuilderAgent`
  (`generate_template_stream`, `_is_thinking_chunk`, `_parse_response`,
  `process`);
* `src/ai_agent/schemas/response.py` — the pydantic models
  `TemplateResponse`, `TemplateSection`, `TemplateField`, `TemplateMetadata`,
  `TemplateStatus`, together with pydantic's validation behaviour on JSON
  input;
* `src/ai_agent/schemas/streaming.py` — `StreamEvent`, `StreamEventType`,
  `StreamingTemplateResponse`;
* `src/ai_agent/agent/persona.py` — the fallback branch of
  `PersonaAgent._resolve_with_llm`.

External collaborators are modelled explicitly:

* the incoming LLM token stream (`self._llm.astream(...)`) is modelled as a
  list of delivered chunks followed by how the stream ends (normally, or by
  raising a provider exception, or by raising any other exception);
* `json.loads` is modelled by an executable JSON parser over an inductive
  JSON value type (strict mode, as the source calls it);
* langchain's `PydanticOutputParser.parse` (the whole-text fallback used by
  `_parse_response`) is an external library call and is modelled as an
  explicit function parameter `fb`; theorems quantify over it;
* pydantic validation of the template models is implemented field by field
  from `schemas/response.py` (required fields, defaults, enum membership,
  extra keys ignored).  Error message texts of the model are abbreviations:
  the source surfaces pydantic's own wording, which no property inspects.
-/

set_option maxRecDepth 100000

/-! ### Python string helpers

Character-level embedding of the string operations the source uses:
`str.strip()`, substring search (for `re.search` with literal-prefixed
patterns) and ASCII lowercasing (for `re.IGNORECASE`).  Python treats
unicode spaces as whitespace as well; only the ASCII whitespace characters
are modelled, which is exact on every input the source produces itself and
on all concrete inputs used below.
-/

/-- Whitespace as recognised by Python's `str.strip()` and `re`'s `\s`
(ASCII part): space, tab, newline, carriage return, vertical tab, form feed. -/
def pyIsSpace (c : Char) : Bool :=
  c == ' ' || c == '\t' || c == '\n' || c == '\r' || c == '\x0b' || c == '\x0c'

/-- Python `str.strip()` on a character list. -/
def pyStrip (cs : List Char) : List Char :=
  ((cs.dropWhile pyIsSpace).reverse.dropWhile pyIsSpace).reverse

/-- Index of the first occurrence of `pat` in `cs`, if any
(the leftmost-match rule of `re.search` for literal patterns). -/
def listFind (pat : List Char) : List Char → Option Nat
  | [] => if pat.isEmpty then some 0 else none
  | c :: cs =>
      if pat.isPrefixOf (c :: cs) then some 0
      else (listFind pat cs).map (· + 1)

/-- Case-insensitive first-occurrence search (`re.IGNORECASE`, ASCII). -/
def listFindCI (pat : List Char) (cs : List Char) : Option Nat :=
  listFind (pat.map Char.toLower) (cs.map Char.toLower)

/-! ### JSON values and a model of `json.loads`

`JsonVal` is the value space of parsed JSON.  Numbers keep their source
lexeme: no property ever computes with a numeric value, and keeping the
lexeme avoids floating point entirely.
-/

inductive JsonVal where
  | null
  | bool (b : Bool)
  | num (lexeme : String)
  | str (s : String)
  | arr (elems : List JsonVal)
  | obj (members : List (String × JsonVal))

/-- JSON whitespace, as skipped by `json.loads` between tokens. -/
def jsonIsWs (c : Char) : Bool :=
  c == ' ' || c == '\t' || c == '\n' || c == '\r'

def jsonSkipWs : List Char → List Char
  | c :: cs => if jsonIsWs c then jsonSkipWs cs else c :: cs
  | [] => []

def jsonIsDigit (c : Char) : Bool := '0' ≤ c && c ≤ '9'

def jsonTakeDigits : List Char → List Char × List Char
  | c :: cs =>
      if jsonIsDigit c then
        let (ds, r) := jsonTakeDigits cs
        (c :: ds, r)
      else ([], c :: cs)
  | [] => ([], [])

/-- Value of one hexadecimal digit (codepoint arithmetic: `0`–`9` are
48–57, `a`–`f` are 97–102, `A`–`F` are 65–70). -/
def jsonHexVal (c : Char) : Option Nat :=
  let n := c.toNat
  if 48 ≤ n ∧ n ≤ 57 then some (n - 48)
  else if 97 ≤ n ∧ n ≤ 102 then some (n - 87)
  else if 65 ≤ n ∧ n ≤ 70 then some (n - 55)
  else none

/-- Single-character escapes accepted inside JSON strings, as a table. -/
def jsonEscChar (c : Char) : Option Char :=
  [('"', '"'), ('\\', '\\'), ('/', '/'), ('b', '\x08'), ('f', '\x0c'),
   ('n', '\n'), ('r', '\r'), ('t', '\t')].lookup c

/-- Body of a JSON string after the opening quote.  `json.loads` runs in
strict mode in the source, so raw control characters are rejected. -/
def jsonStrBody (acc : List Char) : List Char → Option (String × List Char)
  | '"' :: rest => some (String.mk acc.reverse, rest)
  | '\\' :: 'u' :: a :: b :: c :: d :: rest =>
      match jsonHexVal a, jsonHexVal b, jsonHexVal c, jsonHexVal d with
      | some va, some vb, some vc, some vd =>
          jsonStrBody (Char.ofNat (((va * 16 + vb) * 16 + vc) * 16 + vd) :: acc) rest
      | _, _, _, _ => none
  | '\\' :: e :: rest =>
      match jsonEscChar e with
      | some ch => jsonStrBody (ch :: acc) rest
      | none => none
  | c :: rest => if c.toNat < 32 then none else jsonStrBody (c :: acc) rest
  | [] => none

/-- A JSON number lexeme: `-?digits(.digits)?([eE][+-]?digits)?`. -/
def jsonNumLex (cs : List Char) : Option (List Char × List Char) :=
  let (neg, cs1) := match cs with
    | '-' :: r => (['-'], r)
    | _ => (([] : List Char), cs)
  let (intDs, cs2) := jsonTakeDigits cs1
  if intDs.isEmpty then none
  else
    let (fracDs, cs3) := match cs2 with
      | '.' :: r =>
          let (ds, r') := jsonTakeDigits r
          if ds.isEmpty then (([] : List Char), '.' :: r) else ('.' :: ds, r')
      | _ => (([] : List Char), cs2)
    let (expDs, cs4) := match cs3 with
      | 'e' :: r =>
          (match r with
           | '+' :: r' =>
               let (ds, r'') := jsonTakeDigits r'
               if ds.isEmpty then (([] : List Char), cs3) else ('e' :: '+' :: ds, r'')
           | '-' :: r' =>
               let (ds, r'') := jsonTakeDigits r'
               if ds.isEmpty then (([] : List Char), cs3) else ('e' :: '-' :: ds, r'')
           | _ =>
               let (ds, r'') := jsonTakeDigits r
               if ds.isEmpty then (([] : List Char), cs3) else ('e' :: ds, r''))
      | 'E' :: r =>
          (match r with
           | '+' :: r' =>
               let (ds, r'') := jsonTakeDigits r'
               if ds.isEmpty then (([] : List Char), cs3) else ('E' :: '+' :: ds, r'')
           | '-' :: r' =>
               let (ds, r'') := jsonTakeDigits r'
               if ds.isEmpty then (([] : List Char), cs3) else ('E' :: '-' :: ds, r'')
           | _ =>
               let (ds, r'') := jsonTakeDigits r
               if ds.isEmpty then (([] : List Char), cs3) else ('E' :: ds, r''))
      | _ => (([] : List Char), cs3)
    some (neg ++ intDs ++ fracDs ++ expDs, cs4)

/-- Prepend an object member to the members parsed after it, with Python
`dict` semantics for duplicate keys: the key keeps its first position but a
later duplicate's value wins. -/
def jsonConsMember (key : String) (v : JsonVal) (ms : List (String × JsonVal)) :
    List (String × JsonVal) :=
  match ms.lookup key with
  | some w => (key, w) :: ms.eraseP (fun kv => kv.1 == key)
  | none => (key, v) :: ms

/-- What the fuelled parser is currently parsing: a single value, the
elements of an array (after `[`), or the members of an object (after `\x7b`).
A single function keeps the recursion structural on the fuel, so concrete
inputs evaluate by `rfl`. -/
inductive JsonPMode where
  | one
  | elems
  | members

/-- Intermediate parse results for the three modes. -/
inductive JsonPRes where
  | one (j : JsonVal)
  | elems (l : List JsonVal)
  | members (l : List (String × JsonVal))

/-- The core of the `json.loads` model.  In `.one` mode it parses a single
JSON value; `.elems` parses one-or-more comma-separated array elements up to
`]`; `.members` parses one-or-more object members up to the closing brace,
with duplicate keys overwriting in place as in Python dicts. -/
def jsonP : Nat → JsonPMode → List Char → Option (JsonPRes × List Char)
  | 0, _, _ => none
  | fuel + 1, .one, cs =>
    (match jsonSkipWs cs with
    | 'n' :: 'u' :: 'l' :: 'l' :: r => some (.one .null, r)
    | 't' :: 'r' :: 'u' :: 'e' :: r => some (.one (.bool true), r)
    | 'f' :: 'a' :: 'l' :: 's' :: 'e' :: r => some (.one (.bool false), r)
    | 'N' :: 'a' :: 'N' :: r => some (.one (.num "NaN"), r)
    | 'I' :: 'n' :: 'f' :: 'i' :: 'n' :: 'i' :: 't' :: 'y' :: r =>
        some (.one (.num "Infinity"), r)
    | '-' :: 'I' :: 'n' :: 'f' :: 'i' :: 'n' :: 'i' :: 't' :: 'y' :: r =>
        some (.one (.num "-Infinity"), r)
    | '"' :: r =>
        (match jsonStrBody [] r with
        | some (s, r') => some (.one (.str s), r')
        | none => none)
    | '[' :: r =>
        (match jsonSkipWs r with
         | ']' :: r' => some (.one (.arr []), r')
         | r' =>
             match jsonP fuel .elems r' with
             | some (.elems es, r'') => some (.one (.arr es), r'')
             | _ => none)
    | '{' :: r =>
        (match jsonSkipWs r with
         | '}' :: r' => some (.one (.obj []), r')
         | r' =>
             match jsonP fuel .members r' with
             | some (.members ms, r'') => some (.one (.obj ms), r'')
             | _ => none)
    | cs' =>
        match jsonNumLex cs' with
        | some (lex, r) => some (.one (.num (String.mk lex)), r)
        | none => none)
  | fuel + 1, .elems, cs =>
    (match jsonP fuel .one cs with
    | some (.one v, r) =>
        (match jsonSkipWs r with
        | ',' :: r' =>
            (match jsonP fuel .elems r' with
            | some (.elems vs, r'') => some (.elems (v :: vs), r'')
            | _ => none)
        | ']' :: r' => some (.elems [v], r')
        | _ => none)
    | _ => none)
  | fuel + 1, .members, cs =>
    (match jsonSkipWs cs with
    | '"' :: r =>
        (match jsonStrBody [] r with
         | none => none
         | some (key, r1) =>
             match jsonSkipWs r1 with
             | ':' :: r2 =>
                 (match jsonP fuel .one r2 with
                  | some (.one v, r3) =>
                      (match jsonSkipWs r3 with
                      | ',' :: r4 =>
                          (match jsonP fuel .members r4 with
                           | some (.members ms, r5) =>
                               some (.members (jsonConsMember key v ms), r5)
                           | _ => none)
                      | '}' :: r4 => some (.members [(key, v)], r4)
                      | _ => none)
                  | _ => none)
             | _ => none)
    | _ => none)

/-- Model of Python `json.loads`: parse one document, reject trailing
non-whitespace (the `Extra data` error). -/
def jsonLoads (s : String) : Option JsonVal :=
  match jsonP (s.data.length + 1) .one s.data with
  | some (.one j, rest) => if (jsonSkipWs rest).isEmpty then some j else none
  | _ => none

example : jsonLoads "  \x7b\"a\": [1, true, null], \"b\": \"x\"\x7d " =
    some (.obj [("a", .arr [.num "1", .bool true, .null]), ("b", .str "x")]) := rfl

example : jsonLoads "\x7b\"a\": 1\x7d extra" = none := rfl

example : jsonLoads "not json" = none := rfl

/-! ### `_parse_response`'s two regex extractions

`re.search(r"```json\s*([\s\S]*?)\s*```", content)` followed by
`.group(1).strip()` yields, by the leftmost-match and lazy-group rules, the
stripped text between the first occurrence of the literal
`` ```json `` and the first occurrence of `` ``` `` after it (and there is a
match exactly when both occurrences exist: a later `` ```json `` cannot
have a closing fence if the first one has none).

`re.search(r"EXPLANATION:\s*([\s\S]*?)(?:\Z|```)", content, re.IGNORECASE)`
followed by `.group(1).strip()` yields the stripped text between the first
case-insensitive occurrence of `EXPLANATION:` and the first `` ``` `` after
it, or the end of the text when no fence follows.
-/

/-- The fenced-JSON extraction of `_parse_response`
(`re.search(r"```json\s*([\s\S]*?)\s*```", content)` plus `.strip()`). -/
def extractFencedJson (content : String) : Option String :=
  match listFind "```json".data content.data with
  | none => none
  | some i =>
      let after := content.data.drop (i + 7)
      match listFind "```".data after with
      | none => none
      | some j => some (String.mk (pyStrip (after.take j)))

/-- The hard-coded default explanation of `_parse_response`. -/
def defaultExplanation : String :=
  "Template generated based on the provided requirements."

/-- The explanation extraction of `_parse_response`
(`re.search(r"EXPLANATION:\s*([\s\S]*?)(?:\Z|```)", content, re.IGNORECASE)`
plus `.strip()`, with the fixed default when the marker is absent). -/
def explanationOf (content : String) : String :=
  match listFindCI "EXPLANATION:".data content.data with
  | none => defaultExplanation
  | some i =>
      let after := content.data.drop (i + 12)
      match listFind "```".data after with
      | some j => String.mk (pyStrip (after.take j))
      | none => String.mk (pyStrip after)

example : extractFencedJson "pre ```json \x7b\"a\": 1\x7d ``` post" =
    some "\x7b\"a\": 1\x7d" := rfl

example : extractFencedJson "no fence here" = none := rfl

example : explanationOf "stuff EXPLANATION:\nfoo" = "foo" := rfl

example : explanationOf "stuff explanation: bar ``` tail" = "bar" := rfl

example : explanationOf "stuff" = defaultExplanation := rfl

/-! ### The pydantic template models (`schemas/response.py`)

Lean mirrors of `TemplateStatus`, `TemplateField`, `TemplateSection`,
`TemplateMetadata`, `TemplateResponse` and the validation pydantic performs
when `TemplateResponse.model_validate` is applied to a parsed JSON value:

* `template_id`, `template_name`, `description` are declared `str` with no
  constraints: any string — including the empty string — validates, and
  non-string JSON values are rejected (pydantic v2 does not coerce numbers
  to `str`);
* `status` is the three-member enum with default `draft`;
* `TemplateField.type` is declared plain `str`: any string validates;
* `required` is `bool` with default `True` (lax mode also accepts the
  usual string/0-1 spellings);
* `metadata.created_at` is a `datetime` with a `datetime.utcnow` default
  factory.  The model keeps the raw JSON value when one is supplied and
  `none` for "filled in by the factory"; its string format is not checked
  (no verified property touches it);
* extra keys are ignored (pydantic's default), and error messages are
  abbreviated stand-ins for pydantic's wording.
-/

inductive TemplateStatus where
  | draft
  | active
  | archived
deriving DecidableEq

structure TemplateField where
  name : String
  type : String
  required : Bool
  description : Option String
  default_value : JsonVal

structure TemplateSection where
  section_id : String
  title : String
  description : Option String
  fields : List TemplateField

structure TemplateMetadata where
  version : String
  created_at : Option JsonVal
  author : String
  tags : List String

structure TemplateResponse where
  template_id : String
  template_name : String
  description : String
  status : TemplateStatus
  metadata : TemplateMetadata
  sections : List TemplateSection

/-- The `TemplateMetadata` produced by the field's default factory. -/
def defaultTemplateMetadata : TemplateMetadata :=
  { version := "1.0.0", created_at := none, author := "AI Agent", tags := [] }

/-- First value stored under `key`, if any (object keys are unique after
`jsonLoads`). -/
def objGet (members : List (String × JsonVal)) (key : String) : Option JsonVal :=
  members.lookup key

/-- A required `str` field: pydantic v2 accepts exactly JSON strings. -/
def validateStr (fieldName : String) : Option JsonVal → Except String String
  | some (.str s) => .ok s
  | some _ => .error (fieldName ++ ": input should be a valid string")
  | none => .error (fieldName ++ ": field required")

/-- An `Optional[str]` field with default `None`. -/
def validateOptStr (fieldName : String) : Option JsonVal → Except String (Option String)
  | some (.str s) => .ok (some s)
  | some .null => .ok none
  | some _ => .error (fieldName ++ ": input should be a valid string")
  | none => .ok none

/-- A `bool` field in pydantic lax mode: booleans, the integers/floats 0
and 1, and the usual yes/no strings (case-insensitive). -/
def validateBool (fieldName : String) (dflt : Bool) :
    Option JsonVal → Except String Bool
  | some (.bool b) => .ok b
  | some (.num l) =>
      if l = "0" || l = "0.0" then .ok false
      else if l = "1" || l = "1.0" then .ok true
      else .error (fieldName ++ ": input should be a valid boolean")
  | some (.str s) =>
      let t := String.mk (s.data.map Char.toLower)
      if t = "false" || t = "f" || t = "no" || t = "n" || t = "off" || t = "0" then .ok false
      else if t = "true" || t = "t" || t = "yes" || t = "y" || t = "on" || t = "1" then .ok true
      else .error (fieldName ++ ": input should be a valid boolean")
  | some _ => .error (fieldName ++ ": input should be a valid boolean")
  | none => .ok dflt

/-- The `status` enum field: absent defaults to `draft`; present values
must be one of the three enum member values. -/
def validateStatus : Option JsonVal → Except String TemplateStatus
  | none => .ok .draft
  | some (.str s) =>
      if s = "draft" then .ok .draft
      else if s = "active" then .ok .active
      else if s = "archived" then .ok .archived
      else .error "status: input should be draft, active or archived"
  | some _ => .error "status: input should be draft, active or archived"

/-- `created_at`: a `datetime` field, default factory `datetime.utcnow`.
Strings and numeric timestamps are kept raw (format unchecked by the
model); other JSON shapes are rejected as pydantic would. -/
def validateCreatedAt : Option JsonVal → Except String (Option JsonVal)
  | none => .ok none
  | some (.str s) => .ok (some (.str s))
  | some (.num l) => .ok (some (.num l))
  | some _ => .error "metadata.created_at: input should be a valid datetime"

/-- `list[str]` (used by `metadata.tags`). -/
def validateStrList (fieldName : String) : List JsonVal → Except String (List String)
  | [] => .ok []
  | .str s :: rest =>
      match validateStrList fieldName rest with
      | .ok ss => .ok (s :: ss)
      | .error e => .error e
  | _ :: _ => .error (fieldName ++ ": input should be a valid string")

/-- `TemplateField.model_validate` on a JSON value. -/
def validateTemplateField : JsonVal → Except String TemplateField
  | .obj ms =>
      (match validateStr "name" (objGet ms "name") with
      | .error e => .error e
      | .ok name =>
          match validateStr "type" (objGet ms "type") with
          | .error e => .error e
          | .ok ty =>
              match validateBool "required" true (objGet ms "required") with
              | .error e => .error e
              | .ok req =>
                  match validateOptStr "description" (objGet ms "description") with
                  | .error e => .error e
                  | .ok descr =>
                      .ok { name := name, type := ty, required := req,
                            description := descr,
                            default_value := (objGet ms "default_value").getD .null })
  | _ => .error "field: input should be an object"

def validateTemplateFieldList : List JsonVal → Except String (List TemplateField)
  | [] => .ok []
  | j :: rest =>
      match validateTemplateField j with
      | .error e => .error e
      | .ok f =>
          match validateTemplateFieldList rest with
          | .ok fs => .ok (f :: fs)
          | .error e => .error e

/-- `TemplateSection.model_validate` on a JSON value. -/
def validateTemplateSection : JsonVal → Except String TemplateSection
  | .obj ms =>
      (match validateStr "section_id" (objGet ms "section_id") with
      | .error e => .error e
      | .ok sid =>
          match validateStr "title" (objGet ms "title") with
          | .error e => .error e
          | .ok title =>
              match validateOptStr "description" (objGet ms "description") with
              | .error e => .error e
              | .ok descr =>
                  match objGet ms "fields" with
                  | none => .ok { section_id := sid, title := title,
                                  description := descr, fields := [] }
                  | some (.arr fs) =>
                      (match validateTemplateFieldList fs with
                      | .error e => .error e
                      | .ok fields => .ok { section_id := sid, title := title,
                                            description := descr, fields := fields })
                  | some _ => .error "fields: input should be a valid list")
  | _ => .error "section: input should be an object"

def validateTemplateSectionList : List JsonVal → Except String (List TemplateSection)
  | [] => .ok []
  | j :: rest =>
      match validateTemplateSection j with
      | .error e => .error e
      | .ok s =>
          match validateTemplateSectionList rest with
          | .ok ss => .ok (s :: ss)
          | .error e => .error e

/-- `TemplateMetadata.model_validate` on a JSON value (every field has a
default, so everything may be absent). -/
def validateTemplateMetadata : JsonVal → Except String TemplateMetadata
  | .obj ms =>
      (match ((match objGet ms "version" with
              | none => .ok "1.0.0"
              | v => validateStr "metadata.version" v) : Except String String) with
      | .error e => .error e
      | .ok version =>
          match validateCreatedAt (objGet ms "created_at") with
          | .error e => .error e
          | .ok createdAt =>
              match ((match objGet ms "author" with
                     | none => .ok "AI Agent"
                     | v => validateStr "metadata.author" v) : Except String String) with
              | .error e => .error e
              | .ok author =>
                  match objGet ms "tags" with
                  | none => .ok { version := version, created_at := createdAt,
                                  author := author, tags := [] }
                  | some (.arr ts) =>
                      (match validateStrList "metadata.tags" ts with
                      | .error e => .error e
                      | .ok tags => .ok { version := version, created_at := createdAt,
                                          author := author, tags := tags })
                  | some _ => .error "metadata.tags: input should be a valid list")
  | _ => .error "metadata: input should be an object"

/-- `TemplateResponse.model_validate` on a JSON value: the schema
validation applied by `_parse_response` to the fenced block's payload and
by `process` to a TEMPLATE event's data. -/
def validateTemplateResponse : JsonVal → Except String TemplateResponse
  | .obj ms =>
      (match validateStr "template_id" (objGet ms "template_id") with
      | .error e => .error e
      | .ok tid =>
          match validateStr "template_name" (objGet ms "template_name") with
          | .error e => .error e
          | .ok tname =>
              match validateStr "description" (objGet ms "description") with
              | .error e => .error e
              | .ok descr =>
                  match validateStatus (objGet ms "status") with
                  | .error e => .error e
                  | .ok status =>
                      match ((match objGet ms "metadata" with
                             | none => .ok defaultTemplateMetadata
                             | some m => validateTemplateMetadata m) : Except String TemplateMetadata) with
                      | .error e => .error e
                      | .ok meta =>
                          match objGet ms "sections" with
                          | none => .ok { template_id := tid, template_name := tname,
                                          description := descr, status := status,
                                          metadata := meta, sections := [] }
                          | some (.arr ss) =>
                              (match validateTemplateSectionList ss with
                              | .error e => .error e
                              | .ok secs => .ok { template_id := tid,
                                                  template_name := tname,
                                                  description := descr, status := status,
                                                  metadata := meta, sections := secs })
                          | some _ => .error "sections: input should be a valid list")
  | _ => .error "template: input should be an object"

/-! ### Streaming events (`schemas/streaming.py`) and `model_dump`

`StreamEvent.data` is `Any`: a string for chunk/error/done events and the
JSON dump of a `StreamingTemplateResponse` for the TEMPLATE event, so it is
modelled as a `JsonVal`.  The `timestamp` field (a `datetime.now` default
factory that no verified property reads) is omitted from the model.
-/

inductive StreamEventType where
  | thinking
  | content
  | template
  | error
  | done
deriving DecidableEq, BEq

structure StreamEvent where
  event_type : StreamEventType
  data : JsonVal

structure StreamingTemplateResponse where
  template : TemplateResponse
  explanation : String

/-- Stand-in for the concrete timestamp `datetime.utcnow` put into
`created_at` when the model's default factory ran; its value is irrelevant
to every verified property. -/
def factoryCreatedAt : JsonVal := .str "1970-01-01T00:00:00"

def dumpStatus : TemplateStatus → JsonVal
  | .draft => .str "draft"
  | .active => .str "active"
  | .archived => .str "archived"

def dumpOptStr : Option String → JsonVal
  | some s => .str s
  | none => .null

/-- `TemplateField.model_dump(mode="json")`. -/
def dumpTemplateField (f : TemplateField) : JsonVal :=
  .obj [("name", .str f.name), ("type", .str f.type), ("required", .bool f.required),
        ("description", dumpOptStr f.description), ("default_value", f.default_value)]

/-- `TemplateSection.model_dump(mode="json")`. -/
def dumpTemplateSection (s : TemplateSection) : JsonVal :=
  .obj [("section_id", .str s.section_id), ("title", .str s.title),
        ("description", dumpOptStr s.description),
        ("fields", .arr (s.fields.map dumpTemplateField))]

/-- `TemplateMetadata.model_dump(mode="json")`. -/
def dumpTemplateMetadata (m : TemplateMetadata) : JsonVal :=
  .obj [("version", .str m.version),
        ("created_at", m.created_at.getD factoryCreatedAt),
        ("author", .str m.author),
        ("tags", .arr (m.tags.map JsonVal.str))]

/-- `TemplateResponse.model_dump(mode="json")`. -/
def dumpTemplateResponse (t : TemplateResponse) : JsonVal :=
  .obj [("template_id", .str t.template_id), ("template_name", .str t.template_name),
        ("description", .str t.description), ("status", dumpStatus t.status),
        ("metadata", dumpTemplateMetadata t.metadata),
        ("sections", .arr (t.sections.map dumpTemplateSection))]

/-- `StreamingTemplateResponse.model_dump(mode="json")`: what
`generate_template_stream` puts into the TEMPLATE event's `data`. -/
def dumpStreamingTemplateResponse (r : StreamingTemplateResponse) : JsonVal :=
  .obj [("template", dumpTemplateResponse r.template), ("explanation", .str r.explanation)]

/-! ### `StreamingModuleBuilderAgent` (`agent/streaming.py`)

The upstream LLM token stream `self._llm.astream(messages)` is external: it
is modelled as the list of chunks it delivers followed by how it ends —
normally, or raising one of the provider exception classes
(`APIConnectionError`, `APIError`, `RateLimitError`), or raising any other
exception.  Raised exceptions carry their message so that theorems can show
the surfaced text does not depend on it.

A chunk always has `content`, `response_metadata` and `additional_kwargs`
(langchain's `AIMessageChunk` guarantees all three); the two metadata dicts
are modelled as association lists recording only each value's Python
truthiness, which is all `_is_thinking_chunk` reads.
-/

structure Chunk where
  content : String
  response_metadata : List (String × Bool)
  additional_kwargs : List (String × Bool)

/-- How the upstream stream ends after delivering its chunks. -/
inductive StreamOutcome where
  | ok
  | providerError (msg : String)
  | unexpectedError (msg : String)

structure Upstream where
  chunks : List Chunk
  outcome : StreamOutcome

/-- `dict.get(key)` truthiness: missing keys are falsy. -/
def lookupTruthy (m : List (String × Bool)) (key : String) : Bool :=
  (m.lookup key).getD false

/-- `StreamingModuleBuilderAgent._is_thinking_chunk`. -/
def is_thinking_chunk (c : Chunk) : Bool :=
  if lookupTruthy c.response_metadata "thinking" || lookupTruthy c.response_metadata "reasoning" then
    true
  else if lookupTruthy c.additional_kwargs "thinking" || lookupTruthy c.additional_kwargs "is_thinking" then
    true
  else
    false

/-- The per-chunk loop of `generate_template_stream` (lines 132–155): skip
falsy (empty) chunk contents, update `current_mode` exactly as the source
does, append to `accumulated_content`, and yield one event per surviving
chunk.  Returns the yielded events and the final accumulated text. -/
def streamChunkPhase : List Chunk → StreamEventType → String →
    List StreamEvent × String
  | [], _, acc => ([], acc)
  | c :: rest, mode, acc =>
      if c.content = "" then streamChunkPhase rest mode acc
      else
        let is_thinking := is_thinking_chunk c
        let mode' :=
          if is_thinking then StreamEventType.thinking
          else if mode = StreamEventType.thinking && !is_thinking then StreamEventType.content
          else mode
        let (evs, accOut) := streamChunkPhase rest mode' (acc ++ c.content)
        (⟨mode', .str c.content⟩ :: evs, accOut)

/-- The chunk events `generate_template_stream` yields before terminal
processing (initial mode CONTENT, empty accumulator). -/
def chunkEvents (up : Upstream) : List StreamEvent :=
  (streamChunkPhase up.chunks .content "").1

/-- The accumulated text handed to `_parse_response` on the success path. -/
def accumulatedOf (up : Upstream) : String :=
  (streamChunkPhase up.chunks .content "").2

/-- The fixed message of `TemplateParsingError` as raised by
`_parse_response`, and of the ERROR event for parse failures. -/
def parseErrorMsg : String := "Unable to parse the generated template response"

def providerErrorMsg : String := "Unable to communicate with AI provider"

def unexpectedErrorMsg : String := "An unexpected error occurred during template generation"

/-- The template-extraction step of `_parse_response` (the value the
source binds to `template`): fenced block first, whole-text fallback when
no fence is found.  `fb` is the external langchain
`PydanticOutputParser.parse` call (its result either validates against the
schema or the call raises). -/
def parsedTemplate (fb : String → Except String TemplateResponse)
    (content : String) : Except String TemplateResponse :=
  match extractFencedJson content with
  | some jsonStr =>
      (match jsonLoads jsonStr with
      | some j => validateTemplateResponse j
      | none => .error "json.loads: invalid JSON")
  | none => fb content

/-- `StreamingModuleBuilderAgent._parse_response`: template extraction
plus explanation extraction; every exception inside the body is converted
to `TemplateParsingError` with the fixed message. -/
def parse_response (fb : String → Except String TemplateResponse)
    (content : String) : Except String StreamingTemplateResponse :=
  match parsedTemplate fb content with
  | .ok template => .ok { template := template, explanation := explanationOf content }
  | .error _ => .error parseErrorMsg

/-- `StreamingModuleBuilderAgent.generate_template_stream`: the full event
sequence of one run, as yielded to the consumer. -/
def generate_template_stream (fb : String → Except String TemplateResponse)
    (up : Upstream) : List StreamEvent :=
  let evs := chunkEvents up
  match up.outcome with
  | .providerError _ => evs ++ [⟨.error, .str providerErrorMsg⟩]
  | .unexpectedError _ => evs ++ [⟨.error, .str unexpectedErrorMsg⟩]
  | .ok =>
      match parse_response fb (accumulatedOf up) with
      | .ok resp =>
          evs ++ [⟨.template, dumpStreamingTemplateResponse resp⟩,
                  ⟨.done, .str "Stream completed"⟩]
      | .error _ => evs ++ [⟨.error, .str parseErrorMsg⟩]

/-- How `StreamingModuleBuilderAgent.process` can fail: a pydantic
`ValidationError` escaping from `TemplateResponse.model_validate`, or the
`TemplateParsingError` it raises itself when no TEMPLATE event occurred. -/
inductive ProcessError where
  | validation (msg : String)
  | templateParsing (msg : String)

/-- The event loop of `process`: on each TEMPLATE event it validates the
event's data as a `TemplateResponse` (a raised `ValidationError`
propagates, aborting the iteration) and remembers the result with the
hard-coded explanation; at the end it fails if no TEMPLATE event was seen. -/
def processEvents : List StreamEvent → Option StreamingTemplateResponse →
    Except ProcessError StreamingTemplateResponse
  | [], none => .error (.templateParsing "Stream completed without generating a template")
  | [], some r => .ok r
  | e :: rest, cur =>
      if e.event_type = .template then
        match validateTemplateResponse e.data with
        | .error m => .error (.validation m)
        | .ok t => processEvents rest (some { template := t, explanation := "Generated via streaming." })
      else processEvents rest cur

/-- `StreamingModuleBuilderAgent.process` (the non-streaming entry point):
consume the agent's own event stream and return the final response. -/
def process (fb : String → Except String TemplateResponse) (up : Upstream) :
    Except ProcessError StreamingTemplateResponse :=
  processEvents (generate_template_stream fb up) none

/-- A fallback parser that always rejects — models the external langchain
parser raising `OutputParserException`, used to instantiate `fb` in
concrete runs. -/
def noFallback : String → Except String TemplateResponse :=
  fun _ => .error "OutputParserException"

/-! ### `PersonaAgent._resolve_with_llm` (`agent/persona.py`)

Only the parts the verified properties touch are modelled: the LLM call is
external, so the function takes its outcome (the response content, or the
message of whatever exception the `try` block raised).  Retrieved forms,
views and data records are loosely-typed dicts in the source and are
modelled as association lists of strings. -/

structure FormViewResolution where
  type : String
  id : String
  name : String
  operation : String

structure PersonaResponse where
  resolution : FormViewResolution
  existing_data : Option (List (String × String))
  suggested_changes : List String
  explanation : String

/-- Outcome of the `try` block of `_resolve_with_llm`: the LLM response
content, or the message of the exception that was raised. -/
inductive LlmOutcome where
  | ok (content : String)
  | raised (msg : String)

/-- Python `dict.get(key, default)` on a string dict. -/
def dictGetD (d : List (String × String)) (key dflt : String) : String :=
  (d.lookup key).getD dflt

/-- `PersonaAgent._resolve_with_llm` (lines 310–372): resolve against the
first retrieved form (else view), or fall back on exception to an error
resolution whose explanation interpolates `str(e)`. -/
def resolve_with_llm (forms views data : List (List (String × String)))
    (outcome : LlmOutcome) : PersonaResponse :=
  match outcome with
  | .ok content =>
      let best_match : Option (List (String × String)) :=
        match forms with
        | f :: _ => some f
        | [] => match views with
                | v :: _ => some v
                | [] => none
      let resolution : FormViewResolution :=
        match best_match with
        | some bm =>
            { type := if forms.isEmpty then "view" else "form",
              id := dictGetD bm "id" "unknown",
              name := dictGetD bm "name" "Unknown",
              operation := "read" }
        | none =>
            { type := "view", id := "default", name := "Default View",
              operation := "read" }
      { resolution := resolution, existing_data := data.head?,
        suggested_changes := [], explanation := content }
  | .raised e =>
      { resolution := { type := "view", id := "error", name := "Error",
                        operation := "read" },
        existing_data := none, suggested_changes := [],
        explanation := "Could not process request: " ++ e }

/-! ### Sanity checks against the repository's own test scenarios -/

/-- The mocked stream content of
`test_generate_template_stream_yields_events`. -/
def sanityChunk : Chunk :=
  { content := "```json\n\x7b\"template_id\": \"test-123\", \"template_name\": \"Test\", \"description\": \"A test\"\x7d\n```\n\nEXPLANATION:\nThis is a test template.",
    response_metadata := [], additional_kwargs := [] }

def sanityTemplate : TemplateResponse :=
  { template_id := "test-123", template_name := "Test", description := "A test",
    status := .draft, metadata := defaultTemplateMetadata, sections := [] }

example :
    parse_response noFallback sanityChunk.content =
      .ok { template := sanityTemplate, explanation := "This is a test template." } := rfl

example :
    generate_template_stream noFallback { chunks := [sanityChunk], outcome := .ok } =
      [⟨.content, .str sanityChunk.content⟩,
       ⟨.template, dumpStreamingTemplateResponse
          { template := sanityTemplate, explanation := "This is a test template." }⟩,
       ⟨.done, .str "Stream completed"⟩] := rfl

example :
    generate_template_stream noFallback { chunks := [], outcome := .unexpectedError "API Error" } =
      [⟨.error, .str unexpectedErrorMsg⟩] := rfl

/-! ### Helper lemmas -/

theorem strAppendEmpty (a : String) : a ++ "" = a := by
  apply String.ext
  simp [String.data_append]

theorem strEmptyAppend (a : String) : "" ++ a = a := by
  apply String.ext
  simp [String.data_append]

theorem strAppendAssoc (a b c : String) : a ++ b ++ c = a ++ (b ++ c) := by
  apply String.ext
  simp [String.data_append]

/-- The mode the source assigns to a non-empty chunk, as a function of that
chunk alone. -/
def classifyChunk (c : Chunk) : StreamEventType :=
  if is_thinking_chunk c then .thinking else .content

/-- The chunks whose content is non-empty (the ones not skipped by the
`if not chunk_content: continue` guard). -/
def nonEmptyChunks (chunks : List Chunk) : List Chunk :=
  chunks.filter (fun c => !(c.content == ""))

/-- In-order concatenation of all fragment contents. -/
def concatContents (chunks : List Chunk) : String :=
  chunks.foldr (fun c r => c.content ++ r) ""

theorem classifyChunk_cases (c : Chunk) :
    classifyChunk c = .thinking ∨ classifyChunk c = .content := by
  unfold classifyChunk
  by_cases h : is_thinking_chunk c <;> simp [h]

/-- Closed form of the per-chunk loop: starting from either live mode, it
yields one event per non-empty chunk, classified chunk-by-chunk, and
accumulates every chunk's content in order. -/
theorem streamChunkPhase_spec (chunks : List Chunk) :
    ∀ (mode : StreamEventType) (acc : String),
      mode = .content ∨ mode = .thinking →
      streamChunkPhase chunks mode acc =
        ((nonEmptyChunks chunks).map (fun c => ⟨classifyChunk c, .str c.content⟩),
         acc ++ concatContents chunks) := by
  induction chunks with
  | nil =>
      intro mode acc _
      simp [streamChunkPhase, nonEmptyChunks, concatContents, strAppendEmpty]
  | cons c rest ih =>
      intro mode acc h
      by_cases hc : c.content = ""
      · rw [show concatContents (c :: rest) = c.content ++ concatContents rest from rfl]
        simp [streamChunkPhase, hc, nonEmptyChunks, List.filter, ih mode acc h,
              strEmptyAppend]
      · have hmode : (if is_thinking_chunk c then StreamEventType.thinking
            else if (mode = StreamEventType.thinking) && !(is_thinking_chunk c) then
              StreamEventType.content
            else mode) = classifyChunk c := by
          rcases h with h | h <;> subst h <;>
            by_cases hth : is_thinking_chunk c <;> simp [classifyChunk, hth]
        have hrec := ih (classifyChunk c) (acc ++ c.content) (classifyChunk_cases c).symm
        rw [show concatContents (c :: rest) = c.content ++ concatContents rest from rfl]
        simp only [streamChunkPhase, hc, if_neg hc, hmode, hrec]
        have hcb : (c.content == "") = false := by simp [hc]
        simp [nonEmptyChunks, List.filter_cons, hcb, strAppendAssoc]

theorem chunkEvents_eq (up : Upstream) :
    chunkEvents up =
      (nonEmptyChunks up.chunks).map (fun c => ⟨classifyChunk c, .str c.content⟩) := by
  unfold chunkEvents
  rw [streamChunkPhase_spec up.chunks .content "" (Or.inl rfl)]

theorem accumulatedOf_eq (up : Upstream) :
    accumulatedOf up = concatContents up.chunks := by
  unfold accumulatedOf
  rw [streamChunkPhase_spec up.chunks .content "" (Or.inl rfl), strEmptyAppend]

/-- The events `generate_template_stream` emits after the chunk loop. -/
def streamTerminal (fb : String → Except String TemplateResponse)
    (up : Upstream) : List StreamEvent :=
  match up.outcome with
  | .providerError _ => [⟨.error, .str providerErrorMsg⟩]
  | .unexpectedError _ => [⟨.error, .str unexpectedErrorMsg⟩]
  | .ok =>
      match parse_response fb (accumulatedOf up) with
      | .ok resp =>
          [⟨.template, dumpStreamingTemplateResponse resp⟩,
           ⟨.done, .str "Stream completed"⟩]
      | .error _ => [⟨.error, .str parseErrorMsg⟩]

theorem generate_split (fb : String → Except String TemplateResponse) (up : Upstream) :
    generate_template_stream fb up = chunkEvents up ++ streamTerminal fb up := by
  unfold generate_template_stream streamTerminal
  cases up.outcome with
  | ok => cases parse_response fb (accumulatedOf up) <;> simp
  | providerError m => simp
  | unexpectedError m => simp

theorem streamTerminal_shape (fb : String → Except String TemplateResponse)
    (up : Upstream) :
    (∃ d, streamTerminal fb up = [⟨.template, d⟩, ⟨.done, .str "Stream completed"⟩]) ∨
    (∃ m, (m = providerErrorMsg ∨ m = parseErrorMsg ∨ m = unexpectedErrorMsg) ∧
      streamTerminal fb up = [⟨.error, .str m⟩]) := by
  unfold streamTerminal
  cases up.outcome with
  | ok =>
      cases parse_response fb (accumulatedOf up) with
      | ok r => exact Or.inl ⟨dumpStreamingTemplateResponse r, by simp⟩
      | error e => exact Or.inr ⟨parseErrorMsg, Or.inr (Or.inl rfl), by simp⟩
  | providerError m => exact Or.inr ⟨providerErrorMsg, Or.inl rfl, by simp⟩
  | unexpectedError m => exact Or.inr ⟨unexpectedErrorMsg, Or.inr (Or.inr rfl), by simp⟩

theorem chunkEvents_types (up : Upstream) :
    ((chunkEvents up).all
      (fun e => e.event_type == .thinking || e.event_type == .content)) = true := by
  rw [chunkEvents_eq]
  apply List.all_eq_true.mpr
  intro e he
  obtain ⟨c, _, rfl⟩ := List.mem_map.mp he
  show (classifyChunk c == .thinking || classifyChunk c == .content) = true
  rcases classifyChunk_cases c with h | h <;> rw [h] <;> rfl

/-! ### The verified properties -/

/-- An unmarked chunk followed by a thinking-marked chunk: the run that
refutes one-directionality of the mode. -/
def contentThenThinkingUp : Upstream :=
  { chunks := [{ content := "hello", response_metadata := [], additional_kwargs := [] },
               { content := "reasoning", response_metadata := [("reasoning", true)],
                 additional_kwargs := [] }],
    outcome := .ok }

/-- C1 counterexample: in `generate_template_stream`, a fragment emitted
as CONTENT can be followed by a fragment emitted as THINKING — a
thinking-marked chunk always sets the mode back to THINKING, so the
claimed one-directionality fails. -/
theorem thinkingEventAfterContentEvent :
    (generate_template_stream noFallback contentThenThinkingUp)[0]? =
      some ⟨.content, .str "hello"⟩ ∧
    (generate_template_stream noFallback contentThenThinkingUp)[1]? =
      some ⟨.thinking, .str "reasoning"⟩ :=
  ⟨rfl, rfl⟩

/-- C1 (amended): the running mode simply follows each fragment's own
classification — a fragment is emitted as THINKING exactly when
`_is_thinking_chunk` holds for it, with no memory of earlier fragments, so
the mode is not sticky in either direction. -/
theorem modeFollowsPerChunkClassification :
    ∀ up : Upstream,
      (chunkEvents up).map StreamEvent.event_type =
        (nonEmptyChunks up.chunks).map classifyChunk := by
  intro up
  rw [chunkEvents_eq, List.map_map]
  rfl

/-- Text whose first fenced block is invalid while a later fenced block
holds schema-valid JSON. -/
def twoFenceText : String :=
  "```json not-json ```\n```json \x7b\"template_id\": \"t1\", \"template_name\": \"n\", \"description\": \"d\"\x7d ```"

/-- The prose before the later, valid fenced block of `twoFenceText`. -/
def twoFencePre : String := "```json not-json ```\n"

/-- The inner content of the later, valid fenced block of `twoFenceText`. -/
def twoFenceInner : String :=
  " \x7b\"template_id\": \"t1\", \"template_name\": \"n\", \"description\": \"d\"\x7d "

def twoFenceJson : JsonVal :=
  .obj [("template_id", .str "t1"), ("template_name", .str "n"),
        ("description", .str "d")]

def twoFenceTemplate : TemplateResponse :=
  { template_id := "t1", template_name := "n", description := "d",
    status := .draft, metadata := defaultTemplateMetadata, sections := [] }

/-- C2 counterexample: `twoFenceText` contains a fenced JSON block whose
inner content parses and validates (the second block), yet
`_parse_response` fails — `re.search` only ever considers the first
fenced block, so the claim's quantification over every fenced block is
wrong. -/
theorem laterValidFencedBlockStillFails :
    twoFenceText = twoFencePre ++ "```json" ++ twoFenceInner ++ "```" ++ "" ∧
    jsonLoads (String.mk (pyStrip twoFenceInner.data)) = some twoFenceJson ∧
    validateTemplateResponse twoFenceJson = .ok twoFenceTemplate ∧
    parse_response noFallback twoFenceText = .error parseErrorMsg :=
  ⟨rfl, rfl, rfl, rfl⟩

/-- C2 (amended): for every text in which the *first* fenced JSON block
(the one `re.search` finds) parses as JSON and validates against the
template schema, `_parse_response` returns exactly that block's validated
template, regardless of any prose around the block. -/
theorem firstFencedBlockParsesAndValidates :
    ∀ (fb : String → Except String TemplateResponse) (text jsonStr : String)
      (j : JsonVal) (t : TemplateResponse),
      extractFencedJson text = some jsonStr →
      jsonLoads jsonStr = some j →
      validateTemplateResponse j = .ok t →
      parse_response fb text = .ok { template := t, explanation := explanationOf text } := by
  intro fb text jsonStr j t h1 h2 h3
  have hp : parsedTemplate fb text = .ok t := by
    simp [parsedTemplate, h1, h2, h3]
  simp [parse_response, hp]

def oneFenceText : String :=
  "Some prose.\n```json\n\x7b\"template_id\": \"usr-reg-001\", \"template_name\": \"User Registration\", \"description\": \"Form\"\x7d\n```\nMore prose."

def oneFenceInner : String :=
  "\x7b\"template_id\": \"usr-reg-001\", \"template_name\": \"User Registration\", \"description\": \"Form\"\x7d"

def oneFenceJson : JsonVal :=
  .obj [("template_id", .str "usr-reg-001"),
        ("template_name", .str "User Registration"), ("description", .str "Form")]

def oneFenceTemplate : TemplateResponse :=
  { template_id := "usr-reg-001", template_name := "User Registration",
    description := "Form", status := .draft,
    metadata := defaultTemplateMetadata, sections := [] }

/-- Witness for the C2 theorem at a concrete prose-wrapped fenced block. -/
theorem firstFencedBlockParsesAndValidates_witness :
    parse_response noFallback oneFenceText =
      .ok { template := oneFenceTemplate, explanation := explanationOf oneFenceText } :=
  firstFencedBlockParsesAndValidates noFallback oneFenceText oneFenceInner
    oneFenceJson oneFenceTemplate rfl rfl rfl

/-- Whether the fenced-block path of `_parse_response` yields a
schema-valid template on the given text. -/
def fencedParseOk (text : String) : Bool :=
  match extractFencedJson text with
  | some jsonStr =>
      (match jsonLoads jsonStr with
      | some j =>
          (match validateTemplateResponse j with
          | .ok _ => true
          | .error _ => false)
      | none => false)
  | none => false

def exceptOk {ε α : Type} : Except ε α → Bool
  | .ok _ => true
  | .error _ => false

/-- C3: whenever neither the fenced-block parse nor the whole-text
fallback parse yields a schema-valid template, `_parse_response` fails
with `TemplateParsingError` (fixed message) and returns no result — in
particular no explanation-only value. -/
theorem noValidParseYieldsParsingError :
    ∀ (fb : String → Except String TemplateResponse) (text : String),
      fencedParseOk text = false →
      exceptOk (fb text) = false →
      parse_response fb text = .error parseErrorMsg := by
  intro fb text h1 h2
  have hp : ∃ e, parsedTemplate fb text = .error e := by
    cases hf : extractFencedJson text with
    | none =>
        cases hb : fb text with
        | ok t => rw [hb] at h2; simp [exceptOk] at h2
        | error e => exact ⟨e, by simp [parsedTemplate, hf, hb]⟩
    | some s =>
        cases hl : jsonLoads s with
        | none => exact ⟨"json.loads: invalid JSON", by simp [parsedTemplate, hf, hl]⟩
        | some j =>
            cases hv : validateTemplateResponse j with
            | ok t =>
                exfalso
                simp [fencedParseOk, hf, hl, hv] at h1
            | error e => exact ⟨e, by simp [parsedTemplate, hf, hl, hv]⟩
  obtain ⟨e, hp⟩ := hp
  simp [parse_response, hp]

/-- Witness for the C3 theorem: no fence and no JSON at all. -/
theorem noValidParseYieldsParsingError_witness :
    parse_response noFallback "This is not valid JSON" = .error parseErrorMsg :=
  noValidParseYieldsParsingError noFallback "This is not valid JSON" rfl rfl

/-- C4: every run's event sequence ends in exactly one of two ways — on
success one TEMPLATE event followed by one DONE event, on any failure a
single ERROR event carrying one of the three fixed generic messages and no
DONE after it; all earlier events are per-fragment THINKING/CONTENT
events. -/
theorem streamTerminatesTemplateDoneOrSingleError :
    ∀ (fb : String → Except String TemplateResponse) (up : Upstream),
      ((chunkEvents up).all
        (fun e => e.event_type == .thinking || e.event_type == .content)) = true ∧
      ((∃ d, generate_template_stream fb up =
          chunkEvents up ++ [⟨.template, d⟩, ⟨.done, .str "Stream completed"⟩]) ∨
       (∃ m, (m = providerErrorMsg ∨ m = parseErrorMsg ∨ m = unexpectedErrorMsg) ∧
          generate_template_stream fb up = chunkEvents up ++ [⟨.error, .str m⟩])) := by
  intro fb up
  refine ⟨chunkEvents_types up, ?_⟩
  rcases streamTerminal_shape fb up with ⟨d, hd⟩ | ⟨m, hm, he⟩
  · exact Or.inl ⟨d, by rw [generate_split, hd]⟩
  · exact Or.inr ⟨m, hm, by rw [generate_split, he]⟩

/-- A valid fenced block followed by an explanation marker. -/
def fenceThenExplText : String :=
  "```json\n\x7b\"template_id\": \"t1\", \"template_name\": \"n\", \"description\": \"d\"\x7d\n```\nEXPLANATION:\nfoo"

def fenceThenExplTemplate : TemplateResponse :=
  { template_id := "t1", template_name := "n", description := "d",
    status := .draft, metadata := defaultTemplateMetadata, sections := [] }

/-- C5: the explanation `_parse_response` returns is exactly the one the
case-insensitive `EXPLANATION:` search determines — for any outcome of the
JSON side — with the fixed default when the marker is absent; on the
concrete text with `EXPLANATION:` then `foo` after a valid fenced block,
the explanation is exactly `foo`. -/
theorem explanationExtractionIndependent :
    (∀ (fb : String → Except String TemplateResponse) (text : String),
      (parse_response fb text).map StreamingTemplateResponse.explanation =
        (parse_response fb text).map (fun _ => explanationOf text)) ∧
    explanationOf fenceThenExplText = "foo" ∧
    parse_response noFallback fenceThenExplText =
      .ok { template := fenceThenExplTemplate, explanation := "foo" } ∧
    explanationOf "tail explanation: bar" = "bar" ∧
    explanationOf "no marker anywhere" = defaultExplanation := by
  refine ⟨?_, rfl, rfl, rfl, rfl⟩
  intro fb text
  cases h : parsedTemplate fb text <;> simp only [parse_response, h] <;> rfl

/-- A run whose single fragment is empty. -/
def emptyChunkUp : Upstream :=
  { chunks := [{ content := "", response_metadata := [], additional_kwargs := [] }],
    outcome := .ok }

/-- C6 counterexample: an empty fragment is consumed but skipped — it
produces no THINKING/CONTENT event at all (the run's only event is the
terminal one), so "every fragment produces exactly one event" fails for
empty fragments. -/
theorem emptyFragmentEmitsNoEvent :
    emptyChunkUp.chunks.length = 1 ∧
    chunkEvents emptyChunkUp = [] ∧
    generate_template_stream noFallback emptyChunkUp = [⟨.error, .str parseErrorMsg⟩] :=
  ⟨rfl, rfl, rfl⟩

/-- C6 (amended): every *non-empty* fragment produces exactly one
THINKING-or-CONTENT event carrying its raw text, in order, none dropped or
duplicated; empty fragments are skipped.  Every fragment — empty or not —
is appended to the accumulation buffer, so the text handed to terminal
parsing is the in-order concatenation of all fragment contents, and the
per-fragment events precede all terminal events. -/
theorem nonEmptyFragmentEventsAndAccumulation :
    ∀ (fb : String → Except String TemplateResponse) (up : Upstream),
      chunkEvents up =
        (nonEmptyChunks up.chunks).map (fun c => ⟨classifyChunk c, .str c.content⟩) ∧
      accumulatedOf up = concatContents up.chunks ∧
      (∃ rest, generate_template_stream fb up = chunkEvents up ++ rest) := by
  intro fb up
  exact ⟨chunkEvents_eq up, accumulatedOf_eq up,
         ⟨streamTerminal fb up, generate_split fb up⟩⟩

/-- A thinking-marked fragment followed by an unmarked fragment. -/
def thinkingThenUnmarkedUp : Upstream :=
  { chunks := [{ content := "reasoning", response_metadata := [("thinking", true)],
                 additional_kwargs := [] },
               { content := "hello", response_metadata := [], additional_kwargs := [] }],
    outcome := .ok }

/-- C7: after a thinking-marked fragment, an unmarked fragment is emitted
as CONTENT; and when every fragment carries a thinking marker, no CONTENT
event is ever emitted in the whole run. -/
theorem unmarkedAfterThinkingIsContent :
    (generate_template_stream noFallback thinkingThenUnmarkedUp)[0]? =
      some ⟨.thinking, .str "reasoning"⟩ ∧
    (generate_template_stream noFallback thinkingThenUnmarkedUp)[1]? =
      some ⟨.content, .str "hello"⟩ ∧
    ∀ (fb : String → Except String TemplateResponse) (up : Upstream),
      up.chunks.all (fun c => is_thinking_chunk c) = true →
      (generate_template_stream fb up).all (fun e => e.event_type != .content) = true := by
  refine ⟨rfl, rfl, ?_⟩
  intro fb up h
  have h1 : (chunkEvents up).all (fun e => e.event_type != .content) = true := by
    rw [chunkEvents_eq]
    apply List.all_eq_true.mpr
    intro e he
    obtain ⟨c, hc, rfl⟩ := List.mem_map.mp he
    have hcu : c ∈ up.chunks := List.mem_of_mem_filter hc
    have hth : is_thinking_chunk c = true := List.all_eq_true.mp h c hcu
    show (classifyChunk c != .content) = true
    rw [show classifyChunk c = .thinking from by simp [classifyChunk, hth]]
    rfl
  have h2 : (streamTerminal fb up).all (fun e => e.event_type != .content) = true := by
    unfold streamTerminal
    cases up.outcome with
    | ok => cases parse_response fb (accumulatedOf up) <;> rfl
    | providerError m => rfl
    | unexpectedError m => rfl
  rw [generate_split, List.all_append, h1, h2]
  rfl

/-- A run in which every fragment carries a thinking marker (in either
metadata container). -/
def allThinkingUp : Upstream :=
  { chunks := [{ content := "r1", response_metadata := [("thinking", true)],
                 additional_kwargs := [] },
               { content := "r2", response_metadata := [],
                 additional_kwargs := [("is_thinking", true)] }],
    outcome := .ok }

/-- Witness for the C7 theorem: a concrete all-thinking run emits no
CONTENT event. -/
theorem unmarkedAfterThinkingIsContent_witness :
    allThinkingUp.chunks.all (fun c => is_thinking_chunk c) = true ∧
    (generate_template_stream noFallback allThinkingUp).all
      (fun e => e.event_type != .content) = true :=
  ⟨rfl, unmarkedAfterThinkingIsContent.2.2 noFallback allThinkingUp rfl⟩

/-- A template JSON with an empty `template_id` and a made-up field type. -/
def laxJson : JsonVal :=
  .obj [("template_id", .str ""), ("template_name", .str "x"),
        ("description", .str "y"),
        ("sections", .arr [.obj [("section_id", .str "s"), ("title", .str "t"),
          ("fields", .arr [.obj [("name", .str "f"), ("type", .str "banana")]])]])]

def laxTemplate : TemplateResponse :=
  { template_id := "", template_name := "x", description := "y",
    status := .draft, metadata := defaultTemplateMetadata,
    sections := [{ section_id := "s", title := "t", description := none,
                   fields := [{ name := "f", type := "banana", required := true,
                                description := none, default_value := .null }] }] }

/-- C8 counterexample: schema validation accepts an empty `template_id`
and a `fields[].type` outside the five primitive-type names — the pydantic
models declare these as plain unconstrained `str`, so neither is a
validation failure as the claim asserts. -/
theorem emptyIdAndUnknownTypeAccepted :
    validateTemplateResponse laxJson = .ok laxTemplate := rfl

/-- C8 (amended): `template_id`, `template_name` and `description` must be
*present strings* (emptiness is not checked and non-strings are rejected);
`status` defaults to draft when absent and any value outside the three
enum values is rejected; `fields[].type` is an unconstrained string — any
string value is silently accepted. -/
theorem validationPresenceDefaultsAndEnum :
    (∀ tid tname desc : String,
      validateTemplateResponse
        (.obj [("template_id", .str tid), ("template_name", .str tname),
               ("description", .str desc)]) =
        .ok { template_id := tid, template_name := tname, description := desc,
              status := .draft, metadata := defaultTemplateMetadata, sections := [] }) ∧
    validateTemplateResponse (.obj [("template_name", .str "x"), ("description", .str "y")]) =
      .error "template_id: field required" ∧
    validateTemplateResponse
      (.obj [("template_id", .num "7"), ("template_name", .str "x"),
             ("description", .str "y")]) =
      .error "template_id: input should be a valid string" ∧
    validateTemplateResponse
      (.obj [("template_id", .str "a"), ("template_name", .str "x"),
             ("description", .str "y"), ("status", .str "published")]) =
      .error "status: input should be draft, active or archived" ∧
    validateTemplateResponse
      (.obj [("template_id", .str "a"), ("template_name", .str "x"),
             ("description", .str "y"), ("status", .str "active")]) =
      .ok { template_id := "a", template_name := "x", description := "y",
            status := .active, metadata := defaultTemplateMetadata, sections := [] } ∧
    (∀ ty : String,
      validateTemplateField (.obj [("name", .str "f"), ("type", .str ty)]) =
        .ok { name := "f", type := ty, required := true, description := none,
              default_value := .null }) := by
  refine ⟨?_, rfl, rfl, rfl, rfl, ?_⟩
  · intro tid tname desc
    rfl
  · intro ty
    rfl

/-- Substring test (used to state that a surfaced message embeds the
exception's text). -/
def strContainsSub (pat s : String) : Bool :=
  (listFind pat.data s.data).isSome

/-- C9 counterexample: `PersonaAgent._resolve_with_llm` surfaces a
fallback whose explanation interpolates `str(e)` — the caller-visible
message embeds the caught exception's text and varies with it, so it is
not a fixed generic string. -/
theorem personaFallbackLeaksExceptionText :
    (resolve_with_llm [] [] [] (.raised "ValueError: secret detail")).explanation =
      "Could not process request: ValueError: secret detail" ∧
    strContainsSub "secret detail"
      (resolve_with_llm [] [] [] (.raised "ValueError: secret detail")).explanation = true ∧
    (resolve_with_llm [] [] [] (.raised "ValueError: secret detail")).explanation ≠
      (resolve_with_llm [] [] [] (.raised "KeyError: other")).explanation :=
  ⟨rfl, rfl, by decide⟩

/-- C9 (amended): in the streaming agent an unexpected failure always
surfaces the one fixed generic message, independent of the exception's
own text; but the persona agent's `_resolve_with_llm` fallback surfaces
an explanation that embeds `str(e)` verbatim. -/
theorem unexpectedFailureMessages :
    (∀ (fb : String → Except String TemplateResponse) (up : Upstream) (msg : String),
      up.outcome = .unexpectedError msg →
      generate_template_stream fb up =
        chunkEvents up ++ [⟨.error, .str unexpectedErrorMsg⟩]) ∧
    (∀ (forms views data : List (List (String × String))) (msg : String),
      (resolve_with_llm forms views data (.raised msg)).explanation =
        "Could not process request: " ++ msg) := by
  constructor
  · intro fb up msg h
    rw [generate_split]
    congr 1
    simp [streamTerminal, h]
  · intro forms views data msg
    rfl

/-- An upstream that raises a non-provider exception before any fragment. -/
def unexpectedFailUp : Upstream :=
  { chunks := [], outcome := .unexpectedError "ZeroDivisionError: division by zero" }

/-- Witness for the C9 theorem at concrete exception messages. -/
theorem unexpectedFailureMessages_witness :
    generate_template_stream noFallback unexpectedFailUp =
      chunkEvents unexpectedFailUp ++ [⟨.error, .str unexpectedErrorMsg⟩] ∧
    (resolve_with_llm [] [] [] (.raised "boom")).explanation =
      "Could not process request: " ++ "boom" :=
  ⟨unexpectedFailureMessages.1 noFallback unexpectedFailUp
     "ZeroDivisionError: division by zero" rfl,
   unexpectedFailureMessages.2 [] [] [] "boom"⟩

/-- A run whose single fragment carries a valid fenced template, so the
stream emits a TEMPLATE event. -/
def templateEventUp : Upstream :=
  { chunks := [{ content := "```json\n\x7b\"template_id\": \"t1\", \"template_name\": \"n\", \"description\": \"d\"\x7d\n```",
                 response_metadata := [], additional_kwargs := [] }],
    outcome := .ok }

/-- C10 (code bug): on a run that does produce a TEMPLATE event, `process`
does not return that template — it validates the event's data (the dump of
a `StreamingTemplateResponse`, whose keys are `template`/`explanation`) as
a `TemplateResponse`, whose required `template_id`/`template_name`/
`description` are absent, so pydantic raises a `ValidationError` that
escapes `process`.  When no TEMPLATE event occurs (every error path), the
claimed `TemplateParsingError` is raised. -/
theorem processRaisesValidationErrorOnTemplateEvent :
    ((generate_template_stream noFallback templateEventUp).any
       (fun e => e.event_type == .template)) = true ∧
    process noFallback templateEventUp =
      .error (.validation "template_id: field required") ∧
    process noFallback { chunks := [], outcome := .providerError "conn refused" } =
      .error (.templateParsing "Stream completed without generating a template") :=
  ⟨rfl, rfl, rfl⟩
